import Mathlib

/-!
Shallow embedding of two React view components of Signal-Desktop:

* `ts/components/conversation/conversation-details/EditConversationAttributesModal.tsx`
* `ts/components/StoryViewsNRepliesModal.tsx`

Pure rendering logic is translated into Lean functions from props and
component-local state to explicit render trees; the asynchronous avatar
resolution effect of the edit modal is translated into a step function on an
explicit effect state, driven by event traces.  External collaborators that are
out of scope of this repository fragment (the localized-string lookup `i18n`,
`getAvatarColor`, `getStoryReplyText`, `canvasToArrayBuffer`, the image decoder
and the canvas rendering context) are passed in as abstract function
parameters, so every theorem quantifies over their behaviour.

JavaScript truthiness is modelled explicitly: an optional string is truthy when
present and non-empty, an optional boolean when present and true, a number when
non-zero, and `String(x)` of an absent value yields the string form of
`undefined`.
-/

namespace SignalSpec

/-- Model of a JavaScript `ArrayBuffer` as its list of bytes. -/
abbrev Buf := List Nat

/-- JavaScript truthiness of an optional string: `undefined` and the empty
string are falsy. -/
def strOptTruthy : Option String → Bool
  | some s => decide (s ≠ "")
  | none => false

/-- JavaScript truthiness of an optional boolean: `undefined` is falsy. -/
def boolOptTruthy (o : Option Bool) : Bool := o.getD false

/-- JavaScript truthiness of a number: zero is falsy. -/
def numTruthy (n : Nat) : Bool := decide (n ≠ 0)

/-- JavaScript truthiness of an optional number: `undefined` and `0` are
falsy. -/
def numOptTruthy : Option Nat → Bool
  | some n => numTruthy n
  | none => false

/-- JavaScript string coercion of a possibly-absent string, as in
`String(reply.body)`: an absent value prints as the text of `undefined`. -/
def jsStringCoerce : Option String → String
  | some s => s
  | none => "undefined"

/-! ## EditConversationAttributesModal: data model -/

/-- `RequestState` enum of `EditConversationAttributesModal.tsx`. -/
inductive RequestState where
  | Inactive
  | InactiveWithError
  | Active
deriving DecidableEq, Repr

/-- `TEMPORARY_AVATAR_VALUE = new ArrayBuffer(0)`: the sentinel stored in the
avatar state while the starting avatar path resolves. -/
def TEMPORARY_AVATAR_VALUE : Buf := []

/-- The props of `EditConversationAttributesModal` that its logic reads
(`i18n`, `makeRequest` and `onClose` are collaborators, not data). -/
structure EditProps where
  avatarPath : Option String
  requestState : RequestState
  title : String
deriving DecidableEq, Repr

/-- The component-local state of `EditConversationAttributesModal`:
the two mount-time refs (`startingTitleRef`, `startingAvatarPathRef`) and the
three `useState` cells (`avatar`, `title`, `hasAvatarChanged`). -/
structure EditState where
  startingTitle : String
  startingAvatarPath : Option String
  avatar : Option Buf
  title : String
  hasAvatarChanged : Bool
deriving DecidableEq, Repr

/-- State at mount: refs capture the incoming props, `avatar` starts as the
temporary sentinel exactly when a truthy avatar path was supplied, `title`
starts as the external title, and the avatar dirty flag starts false. -/
def initEditState (p : EditProps) : EditState :=
  { startingTitle := p.title
    startingAvatarPath := p.avatarPath
    avatar := if strOptTruthy p.avatarPath then some TEMPORARY_AVATAR_VALUE else none
    title := p.title
    hasAvatarChanged := false }

/-- `hasChangedExternally`: the external props differ from the values the refs
captured at mount. -/
def hasChangedExternally (p : EditProps) (s : EditState) : Bool :=
  decide (s.startingAvatarPath ≠ p.avatarPath) || decide (s.startingTitle ≠ p.title)

/-- `hasTitleChanged`: the working title differs from the external title. -/
def hasTitleChanged (p : EditProps) (s : EditState) : Bool :=
  decide (s.title ≠ p.title)

/-- `isRequestActive`: the request state equals `RequestState.Active`. -/
def isRequestActive (p : EditProps) : Bool :=
  decide (p.requestState = RequestState.Active)

/-- `canSubmit` of `EditConversationAttributesModal.tsx`. -/
def canSubmit (p : EditProps) (s : EditState) : Bool :=
  !isRequestActive p &&
    (hasChangedExternally p s || hasTitleChanged p s || s.hasAvatarChanged) &&
    decide (s.title.length > 0)

/-- The partial record passed to `makeRequest`: each field is absent
(`none`) or present with its value (`some v`, where the avatar value itself may
be `undefined`). -/
structure SubmitRequest where
  avatar : Option (Option Buf)
  title : Option String
deriving DecidableEq, Repr

/-- Observable outcome of the form submit handler: `preventDefault` was called,
and `makeRequest` was invoked once with the recorded partial record. -/
structure SubmitResult where
  preventDefaultCalled : Bool
  requestSent : SubmitRequest
deriving DecidableEq, Repr

/-- `onSubmit` of `EditConversationAttributesModal.tsx`: always prevents the
default form behaviour, then sends `avatar` iff the avatar dirty flag is set
and `title` iff the working title differs from the external title. -/
def onSubmit (p : EditProps) (s : EditState) : SubmitResult :=
  { preventDefaultCalled := true
    requestSent :=
      { avatar := if s.hasAvatarChanged then some s.avatar else none
        title := if hasTitleChanged p s then some s.title else none } }

/-! ## EditConversationAttributesModal: avatar resolution effect -/

/-- Events that can reach the avatar-resolution effect of the edit modal:
a user edit of the avatar (the `AvatarInput` `onChange`), the unmount cleanup
that raises the cancellation flag, and the completion of the asynchronous
image-path-to-bytes task with either a buffer or an error message. -/
inductive EditEvent where
  | userSetAvatar (newAvatar : Option Buf)
  | unmount
  | complete (result : Except String Buf)

/-- State visible to the avatar-resolution effect: the `shouldCancel` flag of
the closure, the `avatar` state cell, and the log of emitted warnings. -/
structure EffectState where
  shouldCancel : Bool
  avatar : Option Buf
  warnings : List String

/-- Text preceding the error message in the warning logged on a failed
resolution. -/
def warnHeader : String := "Failed to convert image URL to array buffer. Error message: "

/-- One step of the effect machine, from `EditConversationAttributesModal.tsx`:
a user edit overwrites the avatar cell; unmount raises `shouldCancel`; a
successful completion applies the buffer unless `shouldCancel` is raised; a
failed completion only logs a warning. -/
def effectStep (s : EffectState) : EditEvent → EffectState
  | EditEvent.userSetAvatar b => { s with avatar := b }
  | EditEvent.unmount => { s with shouldCancel := true }
  | EditEvent.complete (Except.ok buf) =>
      if s.shouldCancel then s else { s with avatar := some buf }
  | EditEvent.complete (Except.error e) =>
      { s with warnings := s.warnings ++ [warnHeader ++ e] }

/-- Run a trace of events through the effect machine. -/
def runTrace (s : EffectState) (evs : List EditEvent) : EffectState :=
  evs.foldl effectStep s

/-- Abstract model of an image together with what the collaborators
(`Image.decode`, the 2D canvas context, `canvasToArrayBuffer`) see of it. -/
structure Image where
  width : Nat
  height : Nat
  data : List Nat
deriving DecidableEq, Repr

/-- Environment of `imagePathToArrayBuffer`: whether
`canvas.getContext` returns a context, the decode behaviour per source path,
and the `canvasToArrayBuffer` collaborator. -/
structure CanvasEnv where
  hasContext : Bool
  decode : String → Except String Image
  canvasToArrayBuffer : Image → Buf

/-- Error text thrown when the canvas rendering context is missing. -/
def contextErrorMsg : String := "imagePathToArrayBuffer: could not get canvas rendering context"

/-- `imagePathToArrayBuffer` of `EditConversationAttributesModal.tsx`: fails if
there is no canvas rendering context or the image cannot be decoded; otherwise
draws the decoded image and extracts its bytes. -/
def imagePathToArrayBuffer (env : CanvasEnv) (src : String) : Except String Buf :=
  if env.hasContext then
    match env.decode src with
    | Except.error e => Except.error e
    | Except.ok image => Except.ok (env.canvasToArrayBuffer image)
  else Except.error contextErrorMsg

/-- The state after the resolution task started on mount completes (no other
events in between): the effect machine consumes the task's result. -/
def resolutionOutcome (env : CanvasEnv) (src : String) (s : EffectState) : EffectState :=
  effectStep s (EditEvent.complete (imagePathToArrayBuffer env src))

/-! ## StoryViewsNRepliesModal: data model -/

/-- The two tabs of the `Tab` enum in `StoryViewsNRepliesModal.tsx`. -/
inductive Tab where
  | Replies
  | Views
deriving DecidableEq, Repr

/-- Abstract stand-in for `AttachmentType`; the component only passes it
through to collaborators. -/
structure AttachmentType where
  url : Option String
deriving DecidableEq, Repr

/-- The fields of `ReplyType` read by `StoryViewsNRepliesModal.tsx`. -/
structure ReplyType where
  id : String
  acceptedMessageRequest : Option Bool
  avatarPath : Option String
  body : Option String
  color : Option String
  contactNameColor : Option String
  deletedForEveryone : Option Bool
  isMe : Option Bool
  name : Option String
  profileName : Option String
  reactionEmoji : Option String
  sharedGroupNames : Option (List String)
  timestamp : Nat
  title : String
deriving DecidableEq, Repr

/-- The recipient profile fields of `StorySendStateType` read by the
component. -/
structure Recipient where
  id : String
  acceptedMessageRequest : Option Bool
  avatarPath : Option String
  color : Option String
  isMe : Option Bool
  name : Option String
  profileName : Option String
  sharedGroupNames : Option (List String)
  title : String
deriving DecidableEq, Repr

/-- The fields of `StorySendStateType` read by the component. -/
structure StorySendStateType where
  recipient : Recipient
  updatedAt : Option Nat
deriving DecidableEq, Repr

/-- External collaborators of `StoryViewsNRepliesModal.tsx`: the localized
string lookup and the two pure utility imports that live outside this
repository fragment. -/
structure Ext where
  i18n : String → String
  getAvatarColor : Option String → String
  getStoryReplyText : Option AttachmentType → String

/-- The props of `StoryViewsNRepliesModal` that its rendering logic reads
(callbacks and render delegates are collaborators, not data). -/
structure StoryModalProps where
  authorTitle : String
  canReply : Bool
  isGroupStory : Option Bool
  isMyStory : Option Bool
  preferredReactionEmoji : List String
  recentEmojis : Option (List String)
  replies : List ReplyType
  skinTone : Option Nat
  storyPreviewAttachment : Option AttachmentType
  views : List StorySendStateType
deriving Repr

/-- The component-local state the render output depends on: the composer draft
text and whether the reaction picker popover is open. -/
structure StoryModalState where
  messageBodyText : String
  showReactionPicker : Bool
deriving DecidableEq, Repr

/-! ## StoryViewsNRepliesModal: render tree -/

/-- The `Avatar` props captured for one rendered avatar. -/
structure AvatarView where
  acceptedMessageRequest : Option Bool
  avatarPath : Option String
  color : String
  isMe : Bool
  name : Option String
  profileName : Option String
  sharedGroupNames : List String
  title : String
deriving DecidableEq, Repr

/-- One rendered reply row: either a reaction row (avatar, contact name,
"reacted" label, relative timestamp, emoji) or a message row (avatar, contact
name, deleted-for-everyone marker class, body text, timestamp). -/
inductive ReplyRow where
  | reaction (key : String) (avatar : AvatarView) (contactNameColor : Option String)
      (contactTitle : String) (reactedLabel : String) (timestamp : Nat) (emoji : String)
  | message (key : String) (avatar : AvatarView) (doeMarker : Bool)
      (contactNameColor : Option String) (contactTitle : String) (bodyText : String)
      (timestamp : Nat)
deriving DecidableEq, Repr

/-- The replies region: either the list of rendered reply rows (followed in
the markup by the scroll-anchor sentinel) or the "no replies yet"
placeholder. -/
inductive RepliesEl where
  | list (rows : List ReplyRow)
  | noRepliesPlaceholder (text : String)
deriving DecidableEq, Repr

/-- One rendered viewer row: avatar, contact name, and a timestamp only when
`updatedAt` is truthy. -/
structure ViewRow where
  key : String
  avatar : AvatarView
  nameTitle : String
  timestamp : Option Nat
deriving DecidableEq, Repr

/-- The quote preview rendered above the composer for non-group stories. -/
structure QuoteView where
  authorTitle : String
  rawAttachment : Option AttachmentType
  text : String
deriving DecidableEq, Repr

/-- The reaction-picker popover contents when it is open. -/
structure PickerView where
  preferredReactionEmoji : List String
deriving DecidableEq, Repr

/-- The rendered composer: optional quote preview, the composition input with
its draft text and placeholder, the emoji button configuration, and the
reaction-picker popover when open. -/
structure ComposerNode where
  quote : Option QuoteView
  draftText : String
  placeholder : String
  recentEmojis : Option (List String)
  skinTone : Option Nat
  reactionPicker : Option PickerView
deriving DecidableEq, Repr

/-- The rendered `Tabs` element: the initial selected tab and the content each
tab would show (the children closure of lines 365-374 of the source). -/
structure TabsNode where
  initialSelectedTab : Tab
  viewsTab : Option (List ViewRow)
  repliesTab : Option RepliesEl
  composerTab : Option ComposerNode
deriving DecidableEq, Repr

/-- The single list region shown when there is no tab control:
`viewsElement || repliesElement`. -/
inductive ListEl where
  | views (rows : List ViewRow)
  | replies (r : RepliesEl)
deriving DecidableEq, Repr

/-- The content inside the modal: either the tabs element, or the single list
region followed by the composer. -/
inductive ModalContent where
  | tabs (t : TabsNode)
  | plain (lst : Option ListEl) (composer : Option ComposerNode)
deriving DecidableEq, Repr

/-- The whole render output: `null`, or a `Modal` with its focus-trap flag,
its group class flag, and its content. -/
inductive RenderOutput where
  | nothing
  | modal (useFocusTrap : Bool) (groupClass : Bool) (content : ModalContent)
deriving DecidableEq, Repr

/-! ## StoryViewsNRepliesModal: rendering functions -/

/-- The `Avatar` props built from a reply's sender profile fields. -/
def replyAvatar (ext : Ext) (r : ReplyType) : AvatarView :=
  { acceptedMessageRequest := r.acceptedMessageRequest
    avatarPath := r.avatarPath
    color := ext.getAvatarColor r.color
    isMe := r.isMe.getD false
    name := r.name
    profileName := r.profileName
    sharedGroupNames := r.sharedGroupNames.getD []
    title := r.title }

/-- The `Avatar` props built from a viewer's recipient profile fields. -/
def recipientAvatar (ext : Ext) (rec : Recipient) : AvatarView :=
  { acceptedMessageRequest := rec.acceptedMessageRequest
    avatarPath := rec.avatarPath
    color := ext.getAvatarColor rec.color
    isMe := rec.isMe.getD false
    name := rec.name
    profileName := rec.profileName
    sharedGroupNames := rec.sharedGroupNames.getD []
    title := rec.title }

/-- Localization key of the "reacted" label. -/
def reactedKey : String := "StoryViewsNRepliesModal__reacted"

/-- Localization key of the deleted-for-everyone placeholder body. -/
def deletedForEveryoneKey : String := "message--deletedForEveryone"

/-- Localization key of the "no replies yet" placeholder. -/
def noRepliesKey : String := "StoryViewsNRepliesModal__no-replies"

/-- Localization key of the group-story composer placeholder. -/
def replyGroupKey : String := "StoryViewer__reply-group"

/-- Localization key of the direct-story composer placeholder. -/
def replyKey : String := "StoryViewer__reply"

/-- Render one reply, from `StoryViewsNRepliesModal.tsx` lines 215-301: a
truthy `reactionEmoji` yields a reaction row, otherwise a message row whose
body is the deleted placeholder when `deletedForEveryone` is set and the
coerced body text otherwise. -/
def renderReply (ext : Ext) (r : ReplyType) : ReplyRow :=
  if strOptTruthy r.reactionEmoji then
    ReplyRow.reaction r.id (replyAvatar ext r) r.contactNameColor r.title
      (ext.i18n reactedKey) r.timestamp (r.reactionEmoji.getD "")
  else
    ReplyRow.message r.id (replyAvatar ext r) (r.deletedForEveryone.getD false)
      r.contactNameColor r.title
      (if r.deletedForEveryone.getD false then ext.i18n deletedForEveryoneKey
       else jsStringCoerce r.body)
      r.timestamp

/-- Render one viewer row, lines 316-345 of the source. -/
def renderView (ext : Ext) (v : StorySendStateType) : ViewRow :=
  { key := v.recipient.id
    avatar := recipientAvatar ext v.recipient
    nameTitle := v.recipient.title
    timestamp := if numOptTruthy v.updatedAt then v.updatedAt else none }

/-- `composerElement` of `StoryViewsNRepliesModal.tsx`: present exactly when
`!isMyStory && canReply`; the quote preview appears only for non-group
stories, and the reaction picker popover only while open. -/
def composerElement (ext : Ext) (ps : StoryModalProps) (st : StoryModalState) :
    Option ComposerNode :=
  if !boolOptTruthy ps.isMyStory && ps.canReply then
    some
      { quote :=
          if !boolOptTruthy ps.isGroupStory then
            some
              { authorTitle := ps.authorTitle
                rawAttachment := ps.storyPreviewAttachment
                text := ext.getStoryReplyText ps.storyPreviewAttachment }
          else none
        draftText := st.messageBodyText
        placeholder :=
          if boolOptTruthy ps.isGroupStory then ext.i18n replyGroupKey
          else ext.i18n replyKey
        recentEmojis := ps.recentEmojis
        skinTone := ps.skinTone
        reactionPicker :=
          if st.showReactionPicker then
            some { preferredReactionEmoji := ps.preferredReactionEmoji }
          else none }
  else none

/-- `repliesElement` of `StoryViewsNRepliesModal.tsx`: the mapped rows when the
reply collection is non-empty, the "no replies yet" placeholder when it is
empty and the story is a group story, nothing otherwise. -/
def repliesElement (ext : Ext) (ps : StoryModalProps) : Option RepliesEl :=
  if numTruthy ps.replies.length then
    some (RepliesEl.list (ps.replies.map (renderReply ext)))
  else if boolOptTruthy ps.isGroupStory then
    some (RepliesEl.noRepliesPlaceholder (ext.i18n noRepliesKey))
  else none

/-- `viewsElement` of `StoryViewsNRepliesModal.tsx`: the mapped viewer rows
when the viewer collection is non-empty. -/
def viewsElement (ext : Ext) (ps : StoryModalProps) : Option (List ViewRow) :=
  if numTruthy ps.views.length then some (ps.views.map (renderView ext)) else none

/-- `tabsElement` of `StoryViewsNRepliesModal.tsx`: present exactly when both
collections are non-empty; it starts on the Views tab and its children closure
shows `viewsElement` under Views and `repliesElement` plus `composerElement`
under Replies. -/
def tabsElement (ext : Ext) (ps : StoryModalProps) (st : StoryModalState) :
    Option TabsNode :=
  if numTruthy ps.views.length && numTruthy ps.replies.length then
    some
      { initialSelectedTab := Tab.Views
        viewsTab := viewsElement ext ps
        repliesTab := repliesElement ext ps
        composerTab := composerElement ext ps st }
  else none

/-- The content a `TabsNode` shows for a given selected tab, from the children
closure at lines 365-374: Views shows only the views element; Replies shows
the replies element and the composer. -/
def TabsNode.contentFor (t : TabsNode) :
    Tab → Option (List ViewRow) × Option RepliesEl × Option ComposerNode
  | Tab.Views => (t.viewsTab, none, none)
  | Tab.Replies => (none, t.repliesTab, t.composerTab)

/-- The full render of `StoryViewsNRepliesModal`: `null` when none of the four
elements exists, otherwise a modal whose focus trap follows the composer and
whose content is `tabsElement || (viewsElement || repliesElement, composerElement)`. -/
def render (ext : Ext) (ps : StoryModalProps) (st : StoryModalState) : RenderOutput :=
  let te := tabsElement ext ps st
  let ve := viewsElement ext ps
  let re := repliesElement ext ps
  let ce := composerElement ext ps st
  if te.isNone && ve.isNone && re.isNone && ce.isNone then RenderOutput.nothing
  else
    RenderOutput.modal ce.isSome (boolOptTruthy ps.isGroupStory)
      (match te with
       | some t => ModalContent.tabs t
       | none =>
           ModalContent.plain
             (match ve with
              | some v => some (ListEl.views v)
              | none => re.map ListEl.replies)
             ce)

/-- Whether the render output contains the tab control. -/
def RenderOutput.hasTabs : RenderOutput → Bool
  | RenderOutput.modal _ _ (ModalContent.tabs _) => true
  | _ => false

/-- Whether a modal content contains the composer (directly or inside the
Replies tab content). -/
def ModalContent.hasComposer : ModalContent → Bool
  | ModalContent.tabs t => t.composerTab.isSome
  | ModalContent.plain _ c => c.isSome

/-- Whether the render output contains the composer. -/
def RenderOutput.hasComposer : RenderOutput → Bool
  | RenderOutput.nothing => false
  | RenderOutput.modal _ _ c => c.hasComposer

/-- Number of "no replies yet" placeholders in a replies region. -/
def RepliesEl.placeholderCount : RepliesEl → Nat
  | RepliesEl.list _ => 0
  | RepliesEl.noRepliesPlaceholder _ => 1

/-- Number of "no replies yet" placeholders in a list region. -/
def ListEl.placeholderCount : ListEl → Nat
  | ListEl.views _ => 0
  | ListEl.replies r => r.placeholderCount

/-- Number of "no replies yet" placeholders in a modal content. -/
def ModalContent.placeholderCount : ModalContent → Nat
  | ModalContent.tabs t => (t.repliesTab.map RepliesEl.placeholderCount).getD 0
  | ModalContent.plain lst _ => (lst.map ListEl.placeholderCount).getD 0

/-- Number of "no replies yet" placeholders in the render output. -/
def RenderOutput.placeholderCount : RenderOutput → Nat
  | RenderOutput.nothing => 0
  | RenderOutput.modal _ _ c => c.placeholderCount

/-! ## StoryViewsNRepliesModal: emoji insertion -/

/-- The `EmojiPickDataType` payload of a picker selection. -/
structure EmojiPickData where
  shortName : String
  skinTone : Option Nat
deriving DecidableEq, Repr

/-- The two observable effects `insertEmoji` can cause: the input API call
that places the emoji into the draft, and the `onUseEmoji` callback. -/
inductive ComposerEffect where
  | insertIntoDraft (e : EmojiPickData)
  | useEmojiCallback (e : EmojiPickData)
deriving DecidableEq, Repr

/-- `insertEmoji` of `StoryViewsNRepliesModal.tsx` lines 93-101: when the input
API ref is populated it inserts the emoji into the draft and reports the usage;
otherwise it does nothing. -/
def insertEmoji (inputApiPresent : Bool) (e : EmojiPickData) : List ComposerEffect :=
  if inputApiPresent then
    [ComposerEffect.insertIntoDraft e, ComposerEffect.useEmojiCallback e]
  else []

/-- Number of draft insertions among a list of composer effects. -/
def countInsert (l : List ComposerEffect) : Nat :=
  (l.filter fun eff =>
    match eff with
    | ComposerEffect.insertIntoDraft _ => true
    | _ => false).length

/-- Number of emoji-used callback invocations among a list of composer
effects. -/
def countUse (l : List ComposerEffect) : Nat :=
  (l.filter fun eff =>
    match eff with
    | ComposerEffect.useEmojiCallback _ => true
    | _ => false).length

/-! ## Render-tree accessors -/

/-- Whether a rendered reply row is a reaction row. -/
def ReplyRow.isReactionRow : ReplyRow → Bool
  | ReplyRow.reaction _ _ _ _ _ _ _ => true
  | ReplyRow.message _ _ _ _ _ _ _ => false

/-- The emoji of a rendered reply row, when it is a reaction row. -/
def ReplyRow.emojiOf : ReplyRow → Option String
  | ReplyRow.reaction _ _ _ _ _ _ e => some e
  | ReplyRow.message _ _ _ _ _ _ _ => none

/-- The deleted-for-everyone marker of a rendered reply row (message rows
only). -/
def ReplyRow.hasDoeMarker : ReplyRow → Bool
  | ReplyRow.reaction _ _ _ _ _ _ _ => false
  | ReplyRow.message _ _ doe _ _ _ _ => doe

/-- The body text of a rendered reply row, when it is a message row. -/
def ReplyRow.bodyTextOf : ReplyRow → Option String
  | ReplyRow.reaction _ _ _ _ _ _ _ => none
  | ReplyRow.message _ _ _ _ _ b _ => some b

/-! ## Concrete inputs used by witnesses and counterexamples -/

/-- A concrete external-collaborator bundle: identity localization, constant
avatar color, empty story-reply text. -/
def ext0 : Ext :=
  { i18n := fun k => k
    getAvatarColor := fun _ => "A100"
    getStoryReplyText := fun _ => "" }

/-- A concrete viewer profile. -/
def recipient0 : Recipient :=
  { id := "v1"
    acceptedMessageRequest := some true
    avatarPath := none
    color := none
    isMe := some false
    name := none
    profileName := none
    sharedGroupNames := none
    title := "Viewer One" }

/-- A concrete viewer entry. -/
def view0 : StorySendStateType :=
  { recipient := recipient0, updatedAt := some 5 }

/-- A concrete text reply (no reaction emoji). -/
def reply0 : ReplyType :=
  { id := "r1"
    acceptedMessageRequest := some true
    avatarPath := none
    body := some "hello"
    color := none
    contactNameColor := none
    deletedForEveryone := none
    isMe := some false
    name := none
    profileName := none
    reactionEmoji := none
    sharedGroupNames := none
    timestamp := 10
    title := "Replier" }

/-- A concrete reaction reply. -/
def replyReaction0 : ReplyType :=
  { reply0 with id := "r2", reactionEmoji := some "+1" }

/-- A concrete composer-local state. -/
def st0 : StoryModalState :=
  { messageBodyText := "", showReactionPicker := false }

/-- Concrete props for the C4 counterexample: a group story with no replies
but one viewer. -/
def psC4 : StoryModalProps :=
  { authorTitle := "A"
    canReply := false
    isGroupStory := some true
    isMyStory := some true
    preferredReactionEmoji := []
    recentEmojis := none
    replies := []
    skinTone := none
    storyPreviewAttachment := none
    views := [view0] }

/-- Concrete props for the amended C4: a group story with no replies and no
viewers. -/
def psC4e : StoryModalProps :=
  { psC4 with views := [] }

/-- Concrete props with only replies non-empty, for the C3 witness. -/
def psC3r : StoryModalProps :=
  { psC4 with isGroupStory := some false, replies := [reply0], views := [] }

/-- Concrete props with two replies and no viewers, for the C6 witness. -/
def psC6 : StoryModalProps :=
  { psC4 with isGroupStory := some false, replies := [reply0, replyReaction0], views := [] }

/-- Concrete props with both collections non-empty, for the C10 witness. -/
def psC10 : StoryModalProps :=
  { psC4 with isGroupStory := none, replies := [reply0], views := [view0] }

/-- A concrete canvas environment whose rendering context is missing, for the
C9 witness. -/
def envNoContext : CanvasEnv :=
  { hasContext := false
    decode := fun _ => Except.ok { width := 1, height := 1, data := [7] }
    canvasToArrayBuffer := fun image => image.data }

/-- A concrete effect state before a resolution completes. -/
def effSt0 : EffectState :=
  { shouldCancel := false, avatar := some [1, 2], warnings := [] }

end SignalSpec

namespace SignalSpec

/-! ## Helper lemmas -/

/-- The length of a non-empty list is truthy. -/
theorem numTruthy_length_cons {α : Type} (a : α) (l : List α) :
    numTruthy (a :: l).length = true := by
  simp [numTruthy]

/-- A list's length is truthy exactly when the list is non-empty. -/
theorem numTruthy_length_iff {α : Type} (l : List α) :
    numTruthy l.length = true ↔ l ≠ [] := by
  cases l <;> simp [numTruthy]

/-- The composer element exists exactly when `!isMyStory && canReply`. -/
theorem composerElement_isSome (ext : Ext) (ps : StoryModalProps) (st : StoryModalState) :
    (composerElement ext ps st).isSome = (!boolOptTruthy ps.isMyStory && ps.canReply) := by
  cases h : !boolOptTruthy ps.isMyStory && ps.canReply <;> simp [composerElement, h]

/-- The tabs element exists exactly when both collections are non-empty. -/
theorem tabsElement_isSome (ext : Ext) (ps : StoryModalProps) (st : StoryModalState) :
    (tabsElement ext ps st).isSome =
      (numTruthy ps.views.length && numTruthy ps.replies.length) := by
  cases h : numTruthy ps.views.length && numTruthy ps.replies.length <;>
    simp [tabsElement, h]

/-- The render output has a tab control exactly when the tabs element
exists. -/
theorem render_hasTabs (ext : Ext) (ps : StoryModalProps) (st : StoryModalState) :
    (render ext ps st).hasTabs = (tabsElement ext ps st).isSome := by
  unfold render
  cases hte : tabsElement ext ps st with
  | some t => simp [RenderOutput.hasTabs]
  | none =>
      simp only [Option.isNone_none, Bool.true_and]
      split
      · rfl
      · simp [RenderOutput.hasTabs]

/-- The render output has a composer exactly when the composer element
exists. -/
theorem render_hasComposer (ext : Ext) (ps : StoryModalProps) (st : StoryModalState) :
    (render ext ps st).hasComposer = (composerElement ext ps st).isSome := by
  unfold render
  cases hte : tabsElement ext ps st with
  | some t =>
      have : t.composerTab = composerElement ext ps st := by
        revert hte
        unfold tabsElement
        split
        · intro h
          cases h
          rfl
        · intro h
          cases h
      simp [RenderOutput.hasComposer, ModalContent.hasComposer, this]
  | none =>
      simp only [Option.isNone_none, Bool.true_and]
      split
      · rename_i hcond
        simp only [Bool.and_eq_true, Option.isNone_iff_eq_none] at hcond
        simp [RenderOutput.hasComposer, hcond.2]
      · simp [RenderOutput.hasComposer, ModalContent.hasComposer]

/-- A raised cancellation flag persists through any further events. -/
theorem runTrace_shouldCancel (evs : List EditEvent) (s : EffectState)
    (h : s.shouldCancel = true) : (runTrace s evs).shouldCancel = true := by
  induction evs generalizing s with
  | nil => exact h
  | cons ev tl ih =>
      have hstep : (effectStep s ev).shouldCancel = true := by
        cases ev with
        | userSetAvatar b => exact h
        | unmount => rfl
        | complete r =>
            cases r with
            | ok b => simp [effectStep, h]
            | error e => exact h
      exact ih (effectStep s ev) hstep

/-! ## Claims about EditConversationAttributesModal -/

/-- C1: the submit control is enabled exactly when the request state is not
`Active`, the working title is non-empty, and at least one of title-changed,
avatar-dirty or external-props-changed-since-mount holds.  The particular cases
(a) empty title disables, (b) nothing changed disables, (c) any single change
with non-empty title and inactive request enables, are instances. -/
theorem claim_C1_canSubmit (p : EditProps) (s : EditState) :
    canSubmit p s = true ↔
      (p.requestState ≠ RequestState.Active ∧ s.title.length > 0 ∧
        (s.title ≠ p.title ∨ s.hasAvatarChanged = true ∨
          s.startingTitle ≠ p.title ∨ s.startingAvatarPath ≠ p.avatarPath)) := by
  simp only [canSubmit, isRequestActive, hasChangedExternally, hasTitleChanged,
    Bool.and_eq_true, Bool.or_eq_true, Bool.not_eq_true', decide_eq_true_eq,
    decide_eq_false_iff_not]
  tauto

/-- C2: submitting always calls `preventDefault` and invokes `makeRequest` with
a partial record containing `avatar` iff the avatar dirty flag is set (with the
working avatar as value) and `title` iff the working title differs from the
external title (with the working title as value). -/
theorem claim_C2_onSubmit (p : EditProps) (s : EditState) :
    (onSubmit p s).preventDefaultCalled = true ∧
      ((onSubmit p s).requestSent.avatar = some s.avatar ↔ s.hasAvatarChanged = true) ∧
      ((onSubmit p s).requestSent.avatar = none ↔ s.hasAvatarChanged = false) ∧
      ((onSubmit p s).requestSent.title = some s.title ↔ s.title ≠ p.title) ∧
      ((onSubmit p s).requestSent.title = none ↔ s.title = p.title) := by
  refine ⟨rfl, ?_, ?_, ?_, ?_⟩ <;>
    · simp only [onSubmit, hasTitleChanged]
      by_cases h : s.hasAvatarChanged <;> by_cases ht : s.title = p.title <;>
        simp [h, ht]

end SignalSpec

namespace SignalSpec

/-! ## Claims about StoryViewsNRepliesModal -/

/-- C3: the tab control renders exactly when both the reply and viewer
collections are non-empty; when only the replies are non-empty the reply list
renders without tabs, and when only the views are non-empty the viewer list
renders without tabs. -/
theorem claim_C3_tabs (ext : Ext) (ps : StoryModalProps) (st : StoryModalState) :
    ((render ext ps st).hasTabs = true ↔ (ps.views ≠ [] ∧ ps.replies ≠ [])) ∧
      (ps.views = [] → ps.replies ≠ [] →
        render ext ps st =
          RenderOutput.modal (composerElement ext ps st).isSome
            (boolOptTruthy ps.isGroupStory)
            (ModalContent.plain
              (some (ListEl.replies (RepliesEl.list (ps.replies.map (renderReply ext)))))
              (composerElement ext ps st))) ∧
      (ps.replies = [] → ps.views ≠ [] →
        render ext ps st =
          RenderOutput.modal (composerElement ext ps st).isSome
            (boolOptTruthy ps.isGroupStory)
            (ModalContent.plain (some (ListEl.views (ps.views.map (renderView ext))))
              (composerElement ext ps st))) := by
  refine ⟨?_, ?_, ?_⟩
  · rw [render_hasTabs, tabsElement_isSome]
    simp [numTruthy_length_iff, And.comm]
  · intro hv hr
    obtain ⟨r, rs, hrep⟩ := List.exists_cons_of_ne_nil hr
    simp [render, tabsElement, viewsElement, repliesElement, hv, hrep, numTruthy]
  · intro hr hv
    obtain ⟨v, vs, hview⟩ := List.exists_cons_of_ne_nil hv
    simp [render, tabsElement, viewsElement, repliesElement, hv, hr, hview, numTruthy]

/-- Witness for C3 at a concrete input with only the reply collection
non-empty. -/
theorem claim_C3_witness :
    ((render ext0 psC3r st0).hasTabs = true ↔ (psC3r.views ≠ [] ∧ psC3r.replies ≠ [])) ∧
      render ext0 psC3r st0 =
        RenderOutput.modal (composerElement ext0 psC3r st0).isSome
          (boolOptTruthy psC3r.isGroupStory)
          (ModalContent.plain
            (some (ListEl.replies (RepliesEl.list (psC3r.replies.map (renderReply ext0)))))
            (composerElement ext0 psC3r st0)) :=
  ⟨(claim_C3_tabs ext0 psC3r st0).1,
   (claim_C3_tabs ext0 psC3r st0).2.1 rfl (by decide)⟩

/-- C4 counterexample: a group story with an empty reply collection but a
non-empty viewer collection renders the viewer list, not the "no replies yet"
placeholder, so the placeholder does not appear. -/
theorem claim_C4_counterexample :
    boolOptTruthy psC4.isGroupStory = true ∧ psC4.replies = [] ∧
      (render ext0 psC4 st0).placeholderCount = 0 ∧
      (render ext0 psC4 st0).placeholderCount ≠ 1 := by
  refine ⟨rfl, rfl, ?_, ?_⟩ <;> decide

/-- C4 amended: for a group story with an empty reply collection and an empty
viewer collection, the "no replies yet" placeholder renders exactly once. -/
theorem claim_C4_amended (ext : Ext) (ps : StoryModalProps) (st : StoryModalState)
    (hg : boolOptTruthy ps.isGroupStory = true) (hr : ps.replies = [])
    (hv : ps.views = []) :
    (render ext ps st).placeholderCount = 1 := by
  simp [render, tabsElement, viewsElement, repliesElement, hg, hr, hv, numTruthy,
    RenderOutput.placeholderCount, ModalContent.placeholderCount, ListEl.placeholderCount,
    RepliesEl.placeholderCount]

/-- Witness for the amended C4 at a concrete input. -/
theorem claim_C4_witness :
    boolOptTruthy psC4e.isGroupStory = true ∧ psC4e.replies = [] ∧ psC4e.views = [] ∧
      (render ext0 psC4e st0).placeholderCount = 1 :=
  ⟨rfl, rfl, rfl, claim_C4_amended ext0 psC4e st0 rfl rfl rfl⟩

/-- C5: the composer renders exactly when `isMyStory` is not true and
`canReply` is true. -/
theorem claim_C5_composer (ext : Ext) (ps : StoryModalProps) (st : StoryModalState) :
    (render ext ps st).hasComposer = true ↔
      (boolOptTruthy ps.isMyStory = false ∧ ps.canReply = true) := by
  rw [render_hasComposer, composerElement_isSome]
  simp

/-- C6: a non-empty reply collection renders as the ordered map of its rows;
a reply with a truthy reaction emoji becomes a reaction row carrying that
emoji, any other reply becomes a message row whose deleted-for-everyone marker
mirrors the flag and whose body is the deleted placeholder when the flag is
set and the coerced body text otherwise. -/
theorem claim_C6_replies (ext : Ext) (ps : StoryModalProps) (h : ps.replies ≠ []) :
    repliesElement ext ps = some (RepliesEl.list (ps.replies.map (renderReply ext))) ∧
      ∀ r ∈ ps.replies,
        (renderReply ext r).isReactionRow = strOptTruthy r.reactionEmoji ∧
          (renderReply ext r).emojiOf =
            (if strOptTruthy r.reactionEmoji then some (r.reactionEmoji.getD "") else none) ∧
          (renderReply ext r).hasDoeMarker =
            (!strOptTruthy r.reactionEmoji && r.deletedForEveryone.getD false) ∧
          (renderReply ext r).bodyTextOf =
            (if strOptTruthy r.reactionEmoji then none
             else some (if r.deletedForEveryone.getD false then ext.i18n deletedForEveryoneKey
                        else jsStringCoerce r.body)) := by
  constructor
  · obtain ⟨r, rs, hrep⟩ := List.exists_cons_of_ne_nil h
    simp [repliesElement, hrep, numTruthy]
  · intro r _
    cases hre : strOptTruthy r.reactionEmoji <;>
      simp [renderReply, hre, ReplyRow.isReactionRow, ReplyRow.emojiOf,
        ReplyRow.hasDoeMarker, ReplyRow.bodyTextOf]

/-- Witness for C6 at a concrete two-element reply collection. -/
theorem claim_C6_witness :
    repliesElement ext0 psC6 = some (RepliesEl.list (psC6.replies.map (renderReply ext0))) ∧
      (renderReply ext0 replyReaction0).isReactionRow =
        strOptTruthy replyReaction0.reactionEmoji ∧
      (renderReply ext0 reply0).isReactionRow = strOptTruthy reply0.reactionEmoji :=
  ⟨(claim_C6_replies ext0 psC6 (by decide)).1,
   ((claim_C6_replies ext0 psC6 (by decide)).2 replyReaction0 (by decide)).1,
   ((claim_C6_replies ext0 psC6 (by decide)).2 reply0 (by decide)).1⟩

/-- C7: per picker insertion, the draft insertion through the input API and
the emoji-used callback happen together: their counts agree, and both are
exactly one when the input API is populated and zero otherwise. -/
theorem claim_C7_insertEmoji (api : Bool) (e : EmojiPickData) :
    countInsert (insertEmoji api e) = countUse (insertEmoji api e) ∧
      countUse (insertEmoji api e) = (if api then 1 else 0) := by
  cases api <;> simp [insertEmoji, countInsert, countUse]

/-- C10: whenever the tab control exists, it starts on the Views tab and the
content it shows first is exactly the viewer list, with neither the reply list
nor the composer. -/
theorem claim_C10_initialTab (ext : Ext) (ps : StoryModalProps) (st : StoryModalState)
    (hv : ps.views ≠ []) (hr : ps.replies ≠ []) :
    (tabsElement ext ps st).map TabsNode.initialSelectedTab = some Tab.Views ∧
      ((tabsElement ext ps st).map fun t => t.contentFor t.initialSelectedTab) =
        some (some (ps.views.map (renderView ext)), none, none) := by
  obtain ⟨v, vs, hview⟩ := List.exists_cons_of_ne_nil hv
  obtain ⟨r, rs, hrep⟩ := List.exists_cons_of_ne_nil hr
  constructor <;>
    simp [tabsElement, viewsElement, hview, hrep, numTruthy, TabsNode.contentFor]

/-- Witness for C10 at a concrete input with one viewer and one reply. -/
theorem claim_C10_witness :
    (tabsElement ext0 psC10 st0).map TabsNode.initialSelectedTab = some Tab.Views ∧
      ((tabsElement ext0 psC10 st0).map fun t => t.contentFor t.initialSelectedTab) =
        some (some (psC10.views.map (renderView ext0)), none, none) :=
  claim_C10_initialTab ext0 psC10 st0 (by decide) (by decide)

/-! ## Claims about the avatar resolution effect -/

/-- C8: once the unmount cleanup has raised the cancellation flag, a later
completion of the resolution task never changes the avatar state; a successful
completion leaves the whole state untouched. -/
theorem claim_C8_cancel (s0 : EffectState) (t1 t2 : List EditEvent) :
    (∀ b : Buf,
        runTrace s0 (t1 ++ EditEvent.unmount :: (t2 ++ [EditEvent.complete (Except.ok b)])) =
          runTrace s0 (t1 ++ EditEvent.unmount :: t2)) ∧
      (∀ r : Except String Buf,
          (runTrace s0
              (t1 ++ EditEvent.unmount :: (t2 ++ [EditEvent.complete r]))).avatar =
            (runTrace s0 (t1 ++ EditEvent.unmount :: t2)).avatar) := by
  have hassoc : ∀ ev : EditEvent,
      t1 ++ EditEvent.unmount :: (t2 ++ [ev]) =
        (t1 ++ EditEvent.unmount :: t2) ++ [ev] := by
    intro ev
    simp
  have hlast : ∀ ev : EditEvent,
      runTrace s0 (t1 ++ EditEvent.unmount :: (t2 ++ [ev])) =
        effectStep (runTrace s0 (t1 ++ EditEvent.unmount :: t2)) ev := by
    intro ev
    rw [hassoc ev]
    unfold runTrace
    rw [List.foldl_append]
    rfl
  have hcancel : (runTrace s0 (t1 ++ EditEvent.unmount :: t2)).shouldCancel = true := by
    unfold runTrace
    rw [List.foldl_append]
    exact runTrace_shouldCancel t2 _ rfl
  constructor
  · intro b
    rw [hlast]
    simp [effectStep, hcancel]
  · intro r
    rw [hlast]
    cases r with
    | ok b => simp [effectStep, hcancel]
    | error e => simp [effectStep]

/-- C9: when the image-path-to-bytes resolution fails (missing canvas context
or decode error), the completion handling leaves the avatar and the
cancellation flag untouched and only appends a warning to the log; no error
escapes (the outcome is a total function of the state). -/
theorem claim_C9_resolutionFailure (env : CanvasEnv) (src : String) (s : EffectState)
    (e : String) (h : imagePathToArrayBuffer env src = Except.error e) :
    (resolutionOutcome env src s).avatar = s.avatar ∧
      (resolutionOutcome env src s).shouldCancel = s.shouldCancel ∧
      (resolutionOutcome env src s).warnings = s.warnings ++ [warnHeader ++ e] := by
  unfold resolutionOutcome
  rw [h]
  exact ⟨rfl, rfl, rfl⟩

/-- Witness for C9 at a concrete environment with no canvas rendering
context. -/
theorem claim_C9_witness :
    (resolutionOutcome envNoContext "path.png" effSt0).avatar = effSt0.avatar ∧
      (resolutionOutcome envNoContext "path.png" effSt0).shouldCancel =
        effSt0.shouldCancel ∧
      (resolutionOutcome envNoContext "path.png" effSt0).warnings =
        effSt0.warnings ++ [warnHeader ++ contextErrorMsg] :=
  claim_C9_resolutionFailure envNoContext "path.png" effSt0 contextErrorMsg rfl

end SignalSpec
